import Mathlib

/-!
# Verification of the baton-percipio pagination / report engine

Shallow embedding of the connector's pagination token codecs, total-count
header validation, content-page contract checks, report-polling loop and
report status cache, together with proofs of the specification's claims.

Go `int` values (offsets, limits, totals) are embedded as `Nat`: all values
reaching these functions are non-negative (the spec's data model declares
`offset : uint`), and Go's integer division on non-negative operands agrees
with `Nat` division.  Header values parsed with `strconv.Atoi` are embedded
as `Int` since `Atoi` accepts signed input.

The `encoding/json` layer is embedded concretely: marshalling builds the
exact strings Go's `json.Marshal` produces for the repo's token structs
(fields in struct order, no spaces), and unmarshalling is a parser for that
canonical grammar.  Escaping inside JSON strings is not modelled; no claim
exercises a session id containing characters that Go would escape.
-/

/-! ## Decimal digits: the `strconv`/`encoding/json` number layer -/

/-- The decimal digit character for `d % 10`-style values (`d ≤ 9` in use):
character code `48 + d`. -/
def decChar (d : Nat) : Char := Char.ofNat (48 + d)

/-- Inverse of `decChar`: the numeric value of a decimal digit character by
character-code arithmetic, `none` for non-digits. -/
def charDigit? (c : Char) : Option Nat :=
  if c.toNat < 48 ∨ 57 < c.toNat then none else some (c.toNat - 48)

/-- Decimal digits of `n`, most significant first; `[]` for `n = 0`.
`fuel ≥ n` suffices for full evaluation. -/
def natCharsAux (fuel : Nat) (n : Nat) : List Char :=
  match fuel with
  | 0 => []
  | fuel + 1 => if n = 0 then [] else natCharsAux fuel (n / 10) ++ [decChar (n % 10)]

/-- Decimal representation of `n` as characters (what Go prints for a non-negative int). -/
def natChars (n : Nat) : List Char :=
  if n = 0 then ['0'] else natCharsAux n n

/-- Fold decimal digits left-to-right into a number; `none` on a non-digit. -/
def foldDigits (acc : Nat) : List Char → Option Nat
  | [] => some acc
  | c :: cs =>
    match charDigit? c with
    | none => none
    | some d => foldDigits (10 * acc + d) cs

/-- Parse a non-empty all-digit character list as a natural number. -/
def parseNatChars (cs : List Char) : Option Nat :=
  match cs with
  | [] => none
  | _ :: _ => foldDigits 0 cs

/-! ## String helpers for the canonical JSON token grammar -/

/-- Strip an expected literal from the front of a character list
(`none` if the input does not start with it). -/
def dropLit : List Char → List Char → Option (List Char)
  | [], cs => some cs
  | _ :: _, [] => none
  | p :: ps, c :: cs => if c = p then dropLit ps cs else none

/-- Scan up to the next `"` character: returns the consumed characters and the
remainder after the quote; `none` if no quote occurs. -/
def spanNotQuote : List Char → Option (List Char × List Char)
  | [] => none
  | c :: cs =>
    if c = '"' then some ([], cs)
    else
      match spanNotQuote cs with
      | none => none
      | some (s, r) => some (c :: s, r)

/-- Decimal string of a natural number. -/
def natStr (n : Nat) : String := String.mk (natChars n)

/-! ## TokenCodec: the JSON wire formats

`json.Marshal` output for the repo's three token structs, fields in struct
order exactly as Go emits them, and parsers for those canonical strings. -/

/-- Wire format of `SimplePagination` / `UserPagination`: `{"offset":N}`. -/
def jsonSimplePagination (offset : Nat) : String :=
  "\x7b\"offset\":" ++ natStr offset ++ "\x7d"

/-- Wire format of `Pagination` (part_007/part_008):
`{"pagingRequestId":"S","offset":N}`.  Escaping of special characters inside
the session id is not modelled (no claim uses one). -/
def jsonPagination (offset : Nat) (pagingRequestId : String) : String :=
  "\x7b\"pagingRequestId\":\"" ++ pagingRequestId ++ "\",\"offset\":" ++ natStr offset ++ "\x7d"

/-- Wire format of `ContentPagination` (pagination.go):
`{"offset":N,"pagingRequestId":"S","finalOffset":M}`. -/
def jsonContentPagination (offset : Nat) (pagingRequestId : String) (finalOffset : Nat) : String :=
  "\x7b\"offset\":" ++ natStr offset ++ ",\"pagingRequestId\":\"" ++ pagingRequestId
    ++ "\",\"finalOffset\":" ++ natStr finalOffset ++ "\x7d"

/-- Go `json.Unmarshal` into `SimplePagination`/`UserPagination`, modelled on the
canonical serialization grammar `{"offset":N}`. -/
def parseSimpleToken (s : String) : Option Nat :=
  match dropLit "\x7b\"offset\":".data s.data with
  | none => none
  | some rest =>
    match rest.reverse with
    | [] => none
    | c :: revds => if c = '\x7d' then parseNatChars revds.reverse else none

/-- Go `json.Unmarshal` into `Pagination`, modelled on the canonical grammar
`{"pagingRequestId":"S","offset":N}`. -/
def parseStatefulToken (s : String) : Option (Nat × String) :=
  match dropLit "\x7b\"pagingRequestId\":\"".data s.data with
  | none => none
  | some rest =>
    match spanNotQuote rest with
    | none => none
    | some (sid, rest2) =>
      match dropLit ",\"offset\":".data rest2 with
      | none => none
      | some rest3 =>
        match rest3.reverse with
        | [] => none
        | c :: revds =>
          if c = '\x7d' then (parseNatChars revds.reverse).map (fun n => (n, String.mk sid))
          else none

/-! ## Pagination tokens and encoders

The repository carries three generations of the token codec:

* `Part007` — `src/unnamed/part_007`: stateful `Pagination` codec, no safety
  limit, termination on `nextOffset >= total`.
* `Part008` — `src/unnamed/part_008`: `Pagination` (courses) and
  `SimplePagination` (users) codecs with the `MaxPagesPerSync` emergency
  safety limit checked before the total check.
* `PaginationGo` — `src/pkg/connector/client/pagination.go`:
  `UserPagination` (total-based) and `ContentPagination`
  (final-offset-based) codecs, without a safety limit.

Logging calls are side-effect-free and omitted.  The `json.Marshal` error
branches are dead code for these structs (marshalling a struct of ints and
strings cannot fail) and are omitted. -/

/-- The baton-sdk `pagination.Token`; a Go `*pagination.Token` is `Option PToken`. -/
structure PToken where
  token : String
  size : Nat
deriving DecidableEq

/-- Default page size, constant across all versions of the client. -/
def PageSizeDefault : Nat := 1000

/-- Emergency safety limit on pages per sweep (part_008). -/
def MaxPagesPerSync : Nat := 100

namespace Part007

/-- Function `GetNextToken` (part_007 lines 49-71): next stateful token, `""` once
`offset+limit >= total`. -/
def GetNextToken (offset limit total : Nat) (pagingRequestId : String) : String :=
  let nextOffset := offset + limit
  if nextOffset ≥ total then ""
  else jsonPagination nextOffset pagingRequestId

/-- Function `ParsePaginationToken` (part_007 lines 16-44): decode a stateful token,
returning offset, limit and pagingRequestId; `none` is the Go error return. -/
def ParsePaginationToken (pToken : Option PToken) : Option (Nat × Nat × String) :=
  match pToken with
  | none => some (0, PageSizeDefault, "")
  | some t =>
    let limit := if t.size > 0 then t.size else PageSizeDefault
    if t.token = "" then some (0, limit, "")
    else
      match parseStatefulToken t.token with
      | none => none
      | some (offset, sid) => some (offset, limit, sid)

end Part007

namespace Part008

/-- Function `GetNextToken` (part_008 lines 136-197): next stateful token with the
emergency safety check `currentPage >= MaxPagesPerSync` evaluated before the
`nextOffset >= total` check. -/
def GetNextToken (offset limit total : Nat) (pagingRequestId : String) : String :=
  let nextOffset := offset + limit
  let currentPage := offset / limit + 1
  if currentPage ≥ MaxPagesPerSync then ""
  else if nextOffset ≥ total then ""
  else jsonPagination nextOffset pagingRequestId

/-- Function `GetSimpleNextToken` (part_008 lines 201-258): next simple token with the
same safety-before-total check order. -/
def GetSimpleNextToken (offset limit total : Nat) : String :=
  let nextOffset := offset + limit
  let currentPage := offset / limit + 1
  if currentPage ≥ MaxPagesPerSync then ""
  else if nextOffset ≥ total then ""
  else jsonSimplePagination nextOffset

/-- Function `ParseSimplePaginationToken` (part_008 lines 83-131): decode a simple
token, returning offset and limit; `none` is the Go error return. -/
def ParseSimplePaginationToken (pToken : Option PToken) : Option (Nat × Nat) :=
  match pToken with
  | none => some (0, PageSizeDefault)
  | some t =>
    let limit := if t.size > 0 then t.size else PageSizeDefault
    if t.token = "" then some (0, limit)
    else
      match parseSimpleToken t.token with
      | none => none
      | some offset => some (offset, limit)

end Part008

namespace PaginationGo

/-- Function `GetUserNextToken` (pagination.go lines 92-126): next simple token; no
safety-limit check, termination only on `nextOffset >= total`. -/
def GetUserNextToken (offset limit total : Nat) : String :=
  let nextOffset := offset + limit
  if nextOffset ≥ total then ""
  else jsonSimplePagination nextOffset

/-- Function `ParseUserPaginationToken` (pagination.go lines 41-85): decode a simple
token, returning offset and limit; `none` is the Go error return. -/
def ParseUserPaginationToken (pToken : Option PToken) : Option (Nat × Nat) :=
  match pToken with
  | none => some (0, PageSizeDefault)
  | some t =>
    let limit := if t.size > 0 then t.size else PageSizeDefault
    if t.token = "" then some (0, limit)
    else
      match parseSimpleToken t.token with
      | none => none
      | some offset => some (offset, limit)

/-- Function `GetContentNextToken` (pagination.go lines 170-200): next stateful content
token; no safety-limit check, termination on `nextOffset > finalOffset`
(strict). -/
def GetContentNextToken (currentOffset limit finalOffset : Nat)
    (pagingRequestId : String) : String :=
  let nextOffset := currentOffset + limit
  if nextOffset > finalOffset then ""
  else jsonContentPagination nextOffset pagingRequestId finalOffset

end PaginationGo

/-! ## PageHeaderValidator: total-count extraction (part_005)

`http.Header.Get` returns `""` for an absent header, so the header value is
embedded as a `String` with `""` meaning absent. -/

instance {ε α : Type} [DecidableEq ε] [DecidableEq α] : DecidableEq (Except ε α) := fun a b => by
  cases a <;> cases b
  case error.error e f => exact decidable_of_iff (e = f) (by simp)
  case ok.ok x y => exact decidable_of_iff (x = y) (by simp)
  case error.ok => exact isFalse (fun h => Except.noConfusion h)
  case ok.error => exact isFalse (fun h => Except.noConfusion h)

/-- Go `strconv.Atoi`: signed decimal integer parsing.  Overflow of Go's 64-bit
int is not modelled; no caller feeds a 19-digit header. -/
def atoi (s : String) : Option Int :=
  match s.data with
  | '+' :: cs => (parseNatChars cs).map Int.ofNat
  | '-' :: cs => (parseNatChars cs).map (fun n => -(Int.ofNat n))
  | cs => (parseNatChars cs).map Int.ofNat

/-- The distinct failure modes of total-count extraction (part_005 renders
them as `fmt.Errorf` messages; the payloads are the format arguments). -/
inductive TotalCountError
  | missingHeader
  | malformedHeader (value : String)
  | suspiciousValue (total : Int)
deriving DecidableEq

/-- Function `getTotalCount` (part_005 lines 879-896): validated total from the
`x-total-count` header. -/
def getTotalCount (totalString : String) : Except TotalCountError Int :=
  if totalString = "" then .error .missingHeader
  else
    match atoi totalString with
    | none => .error (.malformedHeader totalString)
    | some total =>
      if total > 1000000 then .error (.suspiciousValue total)
      else .ok total

/-- Function `getTotalCountForContentDiscovery` (part_005 lines 898-926): total for
the content-discovery API, estimated from the returned page when the
`x-total-count` header is absent.  The headroom added on a full page is the
literal constant `1000`, not `limit`. -/
def getTotalCountForContentDiscovery (totalString : String)
    (coursesReturned offset limit : Nat) : Except TotalCountError Int :=
  if totalString = "" then
    if coursesReturned < limit then .ok ((offset + coursesReturned : Nat) : Int)
    else .ok ((offset + coursesReturned + 1000 : Nat) : Int)
  else
    match atoi totalString with
    | none => .error (.malformedHeader totalString)
    | some total =>
      if total > 1000000 then .error (.suspiciousValue total)
      else .ok total

/-! ## PaginationDriver: content-page contract checks (part_005 `GetCourses`)

`GetCourses` (part_005 lines 969-1057) fetches a page over HTTP and then
runs header parsing and two API-contract checks on the response.  The
post-response logic is embedded as a function of the response ingredients:
the `x-total-count` header value, the decoded course list and the
`x-paging-request-id` response header.  The course list is opaque to the
checks, so the element type is a parameter. -/

/-- The error outcomes of `GetCourses`' post-response logic; payloads are the
`fmt.Errorf` format arguments (`sessionLost` carries the offset,
`prematureEnd` the offset and total). -/
inductive CoursesError
  | headerError (e : TotalCountError)
  | sessionLost (offset : Nat)
  | prematureEnd (offset : Nat) (total : Int)
deriving DecidableEq

/-- Post-response logic of `GetCourses` (part_005 lines 1013-1057): header
parsing, the `SessionLost` check, the `PrematureEnd` check, then success with
the page, the new session id and the total. -/
def GetCoursesCheck {α : Type} (offset limit : Nat) (pagingRequestId : String)
    (totalHeader : String) (courses : List α) (newPagingRequestId : String) :
    Except CoursesError (List α × String × Int) :=
  match getTotalCountForContentDiscovery totalHeader courses.length offset limit with
  | .error e => .error (.headerError e)
  | .ok total =>
    if offset > 0 ∧ pagingRequestId ≠ "" ∧ newPagingRequestId = "" then
      .error (.sessionLost offset)
    else if courses.length = 0 ∧ (offset : Int) < total then
      .error (.prematureEnd offset total)
    else
      .ok (courses, newPagingRequestId, total)

/-! ## ReportJobPoller (part_005 `pollLearningActivityReport`)

The poll loop issues one GET per attempt; the sequence of response bodies is
a function `Nat → String` (attempt index to body).  Sleeps are pure waits
with no observable effect and are omitted.  The attempt ceiling
`config.RetryAttemptsMaximum` lives in a config package not present in the
source sample, so it is a parameter here. -/

/-- Modelled from the spec: the `ReportStatus` job object (its Go struct
definition is absent from the source sample; the `Id` and `Status` fields are
those used by `percipio.go` and the poller). -/
structure ReportStatus where
  id : String
  status : String
deriving DecidableEq

/-- Whitespace trimmed by `bytes.TrimSpace` (ASCII subset; the API never
emits non-ASCII space). -/
def isSpaceChar (c : Char) : Bool :=
  c = ' ' || c = '\t' || c = '\n' || c = '\r'

/-- Go `bytes.TrimSpace` on the character list of a body. -/
def trimChars (cs : List Char) : List Char :=
  ((cs.dropWhile isSpaceChar).reverse.dropWhile isSpaceChar).reverse

/-- Parse one `"key":"value"` pair of a flat JSON object. -/
def parseFieldPair (cs : List Char) : Option ((String × String) × List Char) :=
  match cs with
  | '"' :: rest =>
    match spanNotQuote rest with
    | none => none
    | some (key, rest2) =>
      match rest2 with
      | ':' :: '"' :: rest3 =>
        match spanNotQuote rest3 with
        | none => none
        | some (value, rest4) => some ((String.mk key, String.mk value), rest4)
      | _ => none
  | _ => none

/-- Parse the field pairs of a flat JSON object after the opening brace,
collecting them until the closing brace.  `fuel` bounds the recursion; the
input length suffices. -/
def parseFieldPairs (fuel : Nat) (cs : List Char) : Option (List (String × String)) :=
  match fuel with
  | 0 => none
  | fuel + 1 =>
    match parseFieldPair cs with
    | none => none
    | some (kv, rest) =>
      match rest with
      | ['\x7d'] => some [kv]
      | ',' :: rest2 => (parseFieldPairs fuel rest2).map (kv :: ·)
      | _ => none

/-- Go `json.Unmarshal` into `ReportStatus`, modelled for flat string-valued
JSON objects (the shape of report-status payloads).  Missing fields keep the
Go zero value `""`; a duplicated key keeps the last value, as Go does. -/
def parseReportStatus (s : String) : Option ReportStatus :=
  match s.data with
  | '\x7b' :: rest =>
    match rest with
    | ['\x7d'] => some ⟨"", ""⟩
    | _ =>
      match parseFieldPairs rest.length rest with
      | none => none
      | some fields =>
        some ⟨fields.foldl (fun acc kv => if kv.1 = "id" then kv.2 else acc) "",
              fields.foldl (fun acc kv => if kv.1 = "status" then kv.2 else acc) ""⟩
  | _ => none

/-- The error outcomes of the poll loop, with the `fmt.Errorf` payloads. -/
inductive PollError
  | unmarshalStatus (body : String)
  | generationFailed (status : String)
  | unexpectedFormat
  | timedOut
deriving DecidableEq

/-- One loop iteration's decision on a response body: retry (sleep and
continue), finish with the report payload, or fail. -/
inductive PollStep
  | retry
  | done (report : String)
  | fail (e : PollError)
deriving DecidableEq

/-- The body handling of one attempt of `pollLearningActivityReport`
(part_005 lines 716-757): trim, classify by first byte, decode status
objects. -/
def classifyPollBody (body : String) : PollStep :=
  let trimmedBody := trimChars body.data
  match trimmedBody with
  | [] => .retry
  | c :: _ =>
    if c = '[' then .done (String.mk trimmedBody)
    else if c = '\x7b' then
      match parseReportStatus (String.mk trimmedBody) with
      | none => .fail (.unmarshalStatus (String.mk trimmedBody))
      | some reportStatus =>
        if reportStatus.status = "PENDING" ∨ reportStatus.status = "IN_PROGRESS" then .retry
        else .fail (.generationFailed reportStatus.status)
    else .fail .unexpectedFormat

/-- The `for i := 0; i < max; i++` poll loop (part_005 lines 702-760):
`attemptsLeft` counts remaining iterations, `i` is the attempt index. -/
def pollLoop (responses : Nat → String) : Nat → Nat → Except PollError String
  | 0, _ => .error .timedOut
  | attemptsLeft + 1, i =>
    match classifyPollBody (responses i) with
    | .retry => pollLoop responses attemptsLeft (i + 1)
    | .done report => .ok report
    | .fail e => .error e

/-- Function `pollLearningActivityReport` (part_005 lines 698-761): poll until a
terminal result, at most `retryAttemptsMaximum` attempts. -/
def pollLearningActivityReport (responses : Nat → String)
    (retryAttemptsMaximum : Nat) : Except PollError String :=
  pollLoop responses retryAttemptsMaximum 0

/-! ## StatusCache (reportCache.go) -/

/-- One row of the learning-activity report.  Modelled from the spec: the
report row struct is absent from the source sample; the `ContentUUID`,
`UserUUID` and `Status` fields are those `reportCache.go` reads. -/
structure ReportEntry where
  contentUUID : String
  userUUID : String
  status : String
deriving DecidableEq

/-- The report payload: a slice of rows. -/
abbrev Report := List ReportEntry

/-- Type `StatusesStore` (reportCache.go line 3): `map[string]map[string]string`,
embedded as a partial function on keys. -/
abbrev StatusesStore := String → Option (String → Option String)

/-- Function `toStatus` (reportCache.go lines 40-49): normalize a Percipio status to a
C1 status; a Go `switch` on string equality. -/
def toStatus (status : String) : String :=
  if status = "Started" then "in_progress"
  else if status = "Completed" then "completed"
  else "unknown"

/-- One iteration of `Load`'s row loop (reportCache.go lines 15-23): fetch or
create the per-content sub-map, set the user's status, store the sub-map
back. -/
def loadRow (r : StatusesStore) (row : ReportEntry) : StatusesStore :=
  let found : String → Option String :=
    match r row.contentUUID with
    | some m => m
    | none => fun _ => none
  let found2 : String → Option String :=
    fun u => if u = row.userUUID then some (toStatus row.status) else found u
  fun c => if c = row.contentUUID then some found2 else r c

/-- The store after `Load` runs its loop over the report rows. -/
def loadAll (r : StatusesStore) (report : Report) : StatusesStore :=
  report.foldl loadRow r

/-- Function `Load` (reportCache.go lines 14-26): mutate the store row by row and
return the error value, which is always `nil` (`none`). -/
def Load (r : StatusesStore) (report : Report) : StatusesStore × Option String :=
  (loadAll r report, none)

/-- Two-level lookup: the status stored for `(contentId, userId)`, if any. -/
def lookup2 (r : StatusesStore) (contentId userId : String) : Option String :=
  match r contentId with
  | none => none
  | some m => m userId

/-! ## Theorems -/

theorem charDigit?_decChar {d : Nat} (h : d < 10) : charDigit? (decChar d) = some d := by
  interval_cases d <;> decide

theorem foldDigits_append (acc : Nat) (xs ys : List Char) :
    foldDigits acc (xs ++ ys)
      = (foldDigits acc xs).bind (fun a => foldDigits a ys) := by
  induction xs generalizing acc with
  | nil => rfl
  | cons c cs ih =>
    simp only [List.cons_append, foldDigits]
    cases charDigit? c with
    | none => rfl
    | some d => exact ih _

theorem foldDigits_natCharsAux (fuel n acc : Nat) (h : n ≤ fuel) :
    foldDigits acc (natCharsAux fuel n)
      = some (acc * 10 ^ (natCharsAux fuel n).length + n) := by
  induction fuel generalizing n acc with
  | zero =>
    have : n = 0 := Nat.le_zero.mp h
    subst this
    simp [natCharsAux, foldDigits]
  | succ fuel ih =>
    by_cases hn : n = 0
    · subst hn
      simp [natCharsAux, foldDigits]
    · have hdiv : n / 10 ≤ fuel := by
        have : n / 10 < n := Nat.div_lt_self (Nat.pos_of_ne_zero hn) (by omega)
        omega
      simp only [natCharsAux, if_neg hn]
      rw [foldDigits_append, ih _ acc hdiv]
      simp only [Option.some_bind, foldDigits, charDigit?_decChar (Nat.mod_lt n (by omega)),
        List.length_append, List.length_singleton]
      congr 1
      rw [pow_succ, ← mul_assoc]
      generalize acc * 10 ^ (natCharsAux fuel (n / 10)).length = k
      omega

theorem natCharsAux_ne_nil {fuel n : Nat} (hn : n ≠ 0) (h : n ≤ fuel) :
    natCharsAux fuel n ≠ [] := by
  cases fuel with
  | zero => omega
  | succ fuel =>
    simp only [natCharsAux, if_neg hn]
    intro hEq
    exact List.append_ne_nil_of_right_ne_nil _ (by simp) hEq

theorem parseNatChars_natChars (n : Nat) : parseNatChars (natChars n) = some n := by
  by_cases hn : n = 0
  · subst hn; rfl
  · have hne : natCharsAux n n ≠ [] := natCharsAux_ne_nil hn le_rfl
    have hfold := foldDigits_natCharsAux n n 0 le_rfl
    unfold natChars parseNatChars
    rw [if_neg hn]
    cases hEq : natCharsAux n n with
    | nil => exact absurd hEq hne
    | cons c cs =>
      rw [hEq] at hfold
      simpa using hfold

theorem dropLit_append (xs ys : List Char) : dropLit xs (xs ++ ys) = some ys := by
  induction xs with
  | nil => rfl
  | cons p ps ih => simp [dropLit, ih]

theorem spanNotQuote_append {s : List Char} (h : '"' ∉ s) (rest : List Char) :
    spanNotQuote (s ++ '"' :: rest) = some (s, rest) := by
  induction s with
  | nil => simp [spanNotQuote]
  | cons c cs ih =>
    simp only [List.mem_cons, not_or] at h
    simp [spanNotQuote, Ne.symm h.1, ih h.2]

theorem parseSimpleToken_json (n : Nat) : parseSimpleToken (jsonSimplePagination n) = some n := by
  have hdata : (jsonSimplePagination n).data
      = "\x7b\"offset\":".data ++ (natChars n ++ ['\x7d']) := by
    simp [jsonSimplePagination, natStr, String.data_append]
  unfold parseSimpleToken
  rw [hdata, dropLit_append]
  simp only [List.reverse_append, List.reverse_cons, List.reverse_nil, List.nil_append,
    List.cons_append, List.reverse_reverse]
  simp [parseNatChars_natChars]

theorem jsonSimplePagination_ne_empty (n : Nat) : jsonSimplePagination n ≠ "" := by
  intro h
  have hdata := congrArg String.data h
  simp [jsonSimplePagination, String.data_append] at hdata

/-- Claim C1, counterexample: the claim extends the safety limit to all four
encoders, but `GetUserNextToken` (pagination.go) has no safety-limit check —
at offset 99000, pageSize 1000, total 1000000 (page index 100) it returns a
token, not `""`. -/
theorem c1_counterexample :
    PaginationGo.GetUserNextToken 99000 1000 1000000 = "\x7b\"offset\":100000\x7d"
      ∧ ¬ PaginationGo.GetUserNextToken 99000 1000 1000000 = "" := by decide

/-- Claim C1 (amended): for the part_008 encoders `GetNextToken` and
`GetSimpleNextToken`, whenever `(offset+pageSize)/pageSize >= MaxPagesPerSync`
(with `pageSize > 0`; the code computes `offset/pageSize + 1`, an equal
quantity) the result is `""` for every `total` — the safety check is evaluated
before the total-based check, so a corrupted total cannot defeat it.  The
pagination.go encoders `GetUserNextToken`/`GetContentNextToken` have no such
check. -/
theorem c1_safety_limit (offset limit total : Nat) (pagingRequestId : String)
    (hl : 0 < limit) (hp : MaxPagesPerSync ≤ (offset + limit) / limit) :
    Part008.GetNextToken offset limit total pagingRequestId = ""
      ∧ Part008.GetSimpleNextToken offset limit total = "" := by
  have hdiv : (offset + limit) / limit = offset / limit + 1 := Nat.add_div_right offset hl
  rw [hdiv] at hp
  constructor
  · simp [Part008.GetNextToken, hp]
  · simp [Part008.GetSimpleNextToken, hp]

/-- Witness for C1 at the claim's concrete input. -/
theorem c1_witness :
    (0 < 1000 ∧ MaxPagesPerSync ≤ (99000 + 1000) / 1000)
      ∧ Part008.GetNextToken 99000 1000 1000000 "session" = ""
      ∧ Part008.GetSimpleNextToken 99000 1000 1000000 = "" :=
  ⟨⟨by decide, by decide⟩,
    (c1_safety_limit 99000 1000 1000000 "session" (by decide) (by decide)).1,
    (c1_safety_limit 99000 1000 1000000 "session" (by decide) (by decide)).2⟩

/-- Claim C2, counterexample: `GetContentNextToken` (pagination.go) compares
strictly (`nextOffset > finalOffset`), so at `offset+pageSize = finalOffset`
(the total role) it emits one more token instead of `""`. -/
theorem c2_counterexample :
    PaginationGo.GetContentNextToken 0 1000 1000 ""
        = "\x7b\"offset\":1000,\"pagingRequestId\":\"\",\"finalOffset\":1000\x7d"
      ∧ ¬ PaginationGo.GetContentNextToken 0 1000 1000 "" = "" := by decide

/-- Claim C2 (amended): the total-based encoders (part_007 `GetNextToken`,
part_008 `GetNextToken`/`GetSimpleNextToken` with `pageSize > 0`, pagination.go
`GetUserNextToken`) return `""` whenever `offset+pageSize >= total`; the
stateful `GetContentNextToken` instead terminates only when
`offset+pageSize > finalOffset` (strict). -/
theorem c2_sweep_completion (offset limit total finalOffset : Nat)
    (pagingRequestId : String) (_hl : 0 < limit)
    (ht : total ≤ offset + limit) (hf : finalOffset < offset + limit) :
    Part007.GetNextToken offset limit total pagingRequestId = ""
      ∧ Part008.GetNextToken offset limit total pagingRequestId = ""
      ∧ Part008.GetSimpleNextToken offset limit total = ""
      ∧ PaginationGo.GetUserNextToken offset limit total = ""
      ∧ PaginationGo.GetContentNextToken offset limit finalOffset pagingRequestId = "" := by
  refine ⟨?_, ?_, ?_, ?_, ?_⟩
  · simp [Part007.GetNextToken, ht]
  · simp [Part008.GetNextToken, ht]
  · simp [Part008.GetSimpleNextToken, ht]
  · simp [PaginationGo.GetUserNextToken, ht]
  · simp [PaginationGo.GetContentNextToken, hf]

/-- Witness for C2 at a concrete boundary input. -/
theorem c2_witness :
    (0 < 1000 ∧ 2000 ≤ 1000 + 1000 ∧ 1500 < 1000 + 1000)
      ∧ Part007.GetNextToken 1000 1000 2000 "sid" = ""
      ∧ Part008.GetNextToken 1000 1000 2000 "sid" = ""
      ∧ Part008.GetSimpleNextToken 1000 1000 2000 = ""
      ∧ PaginationGo.GetUserNextToken 1000 1000 2000 = ""
      ∧ PaginationGo.GetContentNextToken 1000 1000 1500 "sid" = "" :=
  ⟨⟨by decide, by decide, by decide⟩,
    (c2_sweep_completion 1000 1000 2000 1500 "sid" (by decide) (by decide) (by decide)).1,
    (c2_sweep_completion 1000 1000 2000 1500 "sid" (by decide) (by decide) (by decide)).2.1,
    (c2_sweep_completion 1000 1000 2000 1500 "sid" (by decide) (by decide) (by decide)).2.2.1,
    (c2_sweep_completion 1000 1000 2000 1500 "sid" (by decide) (by decide) (by decide)).2.2.2.1,
    (c2_sweep_completion 1000 1000 2000 1500 "sid" (by decide) (by decide) (by decide)).2.2.2.2⟩

/-- Claim C3, counterexample: with the header absent and a full page of size
`pageSize = 2` at offset 0, the estimator returns `0 + 2 + 1000 = 1002`, not
`0 + 2 + 2 = 4` as the claim's `offset + itemsReturned + pageSize` asserts. -/
theorem c3_counterexample :
    getTotalCountForContentDiscovery "" 2 0 2 = .ok 1002
      ∧ ¬ getTotalCountForContentDiscovery "" 2 0 2 = .ok ((0 + 2 + 2 : Nat) : Int) := by
  decide

/-- Claim C3 (amended): when the total-count header is absent the estimator
returns `offset + itemsReturned` if `itemsReturned < pageSize`, and otherwise
`offset + itemsReturned + 1000` — the headroom is the literal constant 1000
(the default page size), not `pageSize`. -/
theorem c3_estimation (offset itemsReturned limit : Nat) :
    getTotalCountForContentDiscovery "" itemsReturned offset limit
      = .ok (if itemsReturned < limit then ((offset + itemsReturned : Nat) : Int)
             else ((offset + itemsReturned + 1000 : Nat) : Int)) := by
  by_cases h : itemsReturned < limit <;> simp [getTotalCountForContentDiscovery, h]

/-- Claim C6: the total-count extractor returns the parsed integer for a
valid header (`"150"` gives 150) and fails with the distinct errors
`missingHeader` (absent header), `malformedHeader` (non-numeric) and
`suspiciousValue` (above the 1,000,000 sanity ceiling). -/
theorem c6_total_count (s : String) (total : Int) :
    getTotalCount "150" = .ok 150
      ∧ getTotalCount "" = .error .missingHeader
      ∧ (s ≠ "" → atoi s = none → getTotalCount s = .error (.malformedHeader s))
      ∧ (s ≠ "" → atoi s = some total → total > 1000000 →
          getTotalCount s = .error (.suspiciousValue total))
      ∧ (s ≠ "" → atoi s = some total → total ≤ 1000000 → getTotalCount s = .ok total) := by
  refine ⟨by decide, by decide, ?_, ?_, ?_⟩
  · intro hs ha; simp [getTotalCount, hs, ha]
  · intro hs ha hgt; simp [getTotalCount, hs, ha, hgt]
  · intro hs ha hle; simp [getTotalCount, hs, ha, not_lt.mpr hle]

/-- Witness for C6 at the spec's concrete header values. -/
theorem c6_witness :
    getTotalCount "not-a-number" = .error (.malformedHeader "not-a-number")
      ∧ getTotalCount "2000000" = .error (.suspiciousValue 2000000)
      ∧ getTotalCount "500" = .ok 500 :=
  ⟨(c6_total_count "not-a-number" 0).2.2.1 (by decide) (by decide),
   (c6_total_count "2000000" 2000000).2.2.2.1 (by decide) (by decide) (by decide),
   (c6_total_count "500" 500).2.2.2.2 (by decide) (by decide) (by decide)⟩

/-- Claim C7: under `offset+pageSize < total` and
`(offset+pageSize)/pageSize < MaxPagesPerSync`, encoding a simple next token
and decoding it with the same page-size hint yields `offset+pageSize` (both
the part_008 and the pagination.go decoder). -/
theorem c7_roundtrip (offset limit total : Nat) (hl : 0 < limit)
    (h1 : offset + limit < total) (h2 : (offset + limit) / limit < MaxPagesPerSync) :
    Part008.ParseSimplePaginationToken
        (some ⟨Part008.GetSimpleNextToken offset limit total, limit⟩)
      = some (offset + limit, limit)
      ∧ PaginationGo.ParseUserPaginationToken
        (some ⟨Part008.GetSimpleNextToken offset limit total, limit⟩)
      = some (offset + limit, limit) := by
  have hdiv : (offset + limit) / limit = offset / limit + 1 := Nat.add_div_right offset hl
  have hsafe : ¬ (offset / limit + 1 ≥ MaxPagesPerSync) := by rw [← hdiv]; omega
  have htot : ¬ (offset + limit ≥ total) := by omega
  have htoken : Part008.GetSimpleNextToken offset limit total
      = jsonSimplePagination (offset + limit) := by
    simp [Part008.GetSimpleNextToken, hsafe, htot]
  have hne := jsonSimplePagination_ne_empty (offset + limit)
  constructor
  · simp [Part008.ParseSimplePaginationToken, htoken, hne, hl, parseSimpleToken_json]
  · simp [PaginationGo.ParseUserPaginationToken, htoken, hne, hl, parseSimpleToken_json]

/-- Witness for C7 at a concrete mid-sweep input. -/
theorem c7_witness :
    (0 < 1000 ∧ 500 + 1000 < 3000 ∧ (500 + 1000) / 1000 < MaxPagesPerSync)
      ∧ Part008.ParseSimplePaginationToken
          (some ⟨Part008.GetSimpleNextToken 500 1000 3000, 1000⟩)
        = some (500 + 1000, 1000)
      ∧ PaginationGo.ParseUserPaginationToken
          (some ⟨Part008.GetSimpleNextToken 500 1000 3000, 1000⟩)
        = some (500 + 1000, 1000) :=
  ⟨⟨by decide, by decide, by decide⟩,
    (c7_roundtrip 500 1000 3000 (by decide) (by decide) (by decide)).1,
    (c7_roundtrip 500 1000 3000 (by decide) (by decide) (by decide)).2⟩

/-- Claim C8: the stateful encoder at offset 0, pageSize 1000, total 2500 and
empty session id produces exactly `{"pagingRequestId":"","offset":1000}`, and
decoding that token (page-size hint 1000) yields offset 1000, limit 1000 and
empty session id. -/
theorem c8_stateful_roundtrip :
    Part007.GetNextToken 0 1000 2500 "" = "\x7b\"pagingRequestId\":\"\",\"offset\":1000\x7d"
      ∧ Part007.ParsePaginationToken
          (some ⟨"\x7b\"pagingRequestId\":\"\",\"offset\":1000\x7d", 1000⟩)
        = some (1000, 1000, "") := by decide

/-- Claim C4: on a stateful page fetch with `offset > 0`, a non-empty prior
session id and a response without a session id, the fetch fails with the
`sessionLost` error carrying the offset; and a fetch returning zero items
while `offset < total` (when the session check does not already fire) fails
with the `prematureEnd` error carrying the offset and total — never an empty
success. -/
theorem c4_contract_checks {α : Type} (offset limit : Nat)
    (pagingRequestId newPagingRequestId totalHeader : String)
    (courses : List α) (total : Int)
    (hok : getTotalCountForContentDiscovery totalHeader courses.length offset limit
            = .ok total) :
    (0 < offset → pagingRequestId ≠ "" → newPagingRequestId = "" →
      GetCoursesCheck offset limit pagingRequestId totalHeader courses newPagingRequestId
        = .error (.sessionLost offset))
      ∧ (courses = [] → (offset : Int) < total →
          ¬ (0 < offset ∧ pagingRequestId ≠ "" ∧ newPagingRequestId = "") →
          GetCoursesCheck offset limit pagingRequestId totalHeader courses newPagingRequestId
            = .error (.prematureEnd offset total)) := by
  constructor
  · intro h1 h2 h3
    simp [GetCoursesCheck, hok, h1, h2, h3]
  · intro h1 h2 h3
    subst h1
    simp only [List.length_nil] at hok
    simp [GetCoursesCheck, hok, h2, h3]

/-- Witness for C4 at the spec's concrete inputs (`prematureEnd` at
itemsReturned 0, offset 500, total 1000; `sessionLost` at offset 500 with a
dropped session id). -/
theorem c4_witness :
    GetCoursesCheck 500 1000 "sess" "1000" ([] : List Unit) "next"
        = .error (.prematureEnd 500 1000)
      ∧ GetCoursesCheck 500 1000 "sess" "1000" [()] ""
        = .error (.sessionLost 500) :=
  ⟨(c4_contract_checks 500 1000 "sess" "next" "1000" ([] : List Unit) 1000
      (by decide)).2 rfl (by decide) (by decide),
   (c4_contract_checks 500 1000 "sess" "" "1000" [()] 1000
      (by decide)).1 (by decide) (by decide) rfl⟩

theorem pollLoop_all_retry (responses : Nat → String) :
    ∀ n i, (∀ j, i ≤ j → j < i + n → classifyPollBody (responses j) = .retry) →
      pollLoop responses n i = .error .timedOut := by
  intro n
  induction n with
  | zero => intro i _; rfl
  | succ n ih =>
    intro i h
    have h0 : classifyPollBody (responses i) = .retry := h i le_rfl (by omega)
    simp only [pollLoop, h0]
    exact ih (i + 1) (fun j hj1 hj2 => h j (by omega) (by omega))

/-- Claim C5: classification of one polled body — an object body whose decoded
status is PENDING or IN_PROGRESS retries, any other decoded status is a hard
`generationFailed` failure, a `[` body is the finished report, an empty body
retries — together with the loop behaviour on each outcome and the
`timedOut` failure when the attempt ceiling is exhausted without a terminal
result. -/
theorem c5_poll_state_machine (responses : Nat → String) (n i : Nat)
    (b : String) (st : ReportStatus) (e : PollError) :
    (trimChars b.data = [] → classifyPollBody b = .retry)
      ∧ ((trimChars b.data).head? = some '[' →
          classifyPollBody b = .done (String.mk (trimChars b.data)))
      ∧ ((trimChars b.data).head? = some '\x7b' →
          parseReportStatus (String.mk (trimChars b.data)) = some st →
          ((st.status = "PENDING" ∨ st.status = "IN_PROGRESS") →
              classifyPollBody b = .retry)
            ∧ (st.status ≠ "PENDING" → st.status ≠ "IN_PROGRESS" →
                classifyPollBody b = .fail (.generationFailed st.status)))
      ∧ (classifyPollBody (responses i) = .retry →
          pollLoop responses (n + 1) i = pollLoop responses n (i + 1))
      ∧ (classifyPollBody (responses i) = .fail e →
          pollLoop responses (n + 1) i = .error e)
      ∧ (classifyPollBody (responses i) = .done b →
          pollLoop responses (n + 1) i = .ok b)
      ∧ ((∀ j, j < n → classifyPollBody (responses j) = .retry) →
          pollLearningActivityReport responses n = .error .timedOut) := by
  refine ⟨?_, ?_, ?_, ?_, ?_, ?_, ?_⟩
  · intro h
    simp [classifyPollBody, h]
  · intro h
    cases hEq : trimChars b.data with
    | nil => rw [hEq] at h; simp at h
    | cons c cs =>
      rw [hEq] at h
      simp only [List.head?_cons, Option.some.injEq] at h
      subst h
      simp [classifyPollBody, hEq]
  · intro h hparse
    cases hEq : trimChars b.data with
    | nil => rw [hEq] at h; simp at h
    | cons c cs =>
      rw [hEq] at h
      simp only [List.head?_cons, Option.some.injEq] at h
      subst h
      rw [hEq] at hparse
      constructor
      · intro hst
        simp [classifyPollBody, hEq, hparse, hst]
      · intro h1 h2
        simp [classifyPollBody, hEq, hparse, h1, h2]
  · intro h
    simp [pollLoop, h]
  · intro h
    simp [pollLoop, h]
  · intro h
    simp [pollLoop, h]
  · intro h
    exact pollLoop_all_retry responses n 0 (fun j _ hj => h j (by omega))

/-- Witness for C5: each conjunct at a concrete body or response sequence. -/
theorem c5_witness :
    classifyPollBody "  " = .retry
      ∧ classifyPollBody "[1]" = .done (String.mk (trimChars "[1]".data))
      ∧ classifyPollBody "\x7b\"status\":\"PENDING\"\x7d" = .retry
      ∧ classifyPollBody "\x7b\"status\":\"FAILED\"\x7d"
          = .fail (.generationFailed "FAILED")
      ∧ pollLoop (fun _ => "\x7b\"status\":\"IN_PROGRESS\"\x7d") 3 0
          = pollLoop (fun _ => "\x7b\"status\":\"IN_PROGRESS\"\x7d") 2 1
      ∧ pollLoop (fun _ => "\x7b\"status\":\"FAILED\"\x7d") 3 0
          = .error (.generationFailed "FAILED")
      ∧ pollLoop (fun _ => "[1]") 3 0 = .ok (String.mk (trimChars "[1]".data))
      ∧ pollLearningActivityReport (fun _ => "\x7b\"status\":\"PENDING\"\x7d") 3
          = .error .timedOut :=
  ⟨(c5_poll_state_machine (fun _ => "") 0 0 "  " ⟨"", ""⟩ .timedOut).1 (by decide),
   (c5_poll_state_machine (fun _ => "") 0 0 "[1]" ⟨"", ""⟩ .timedOut).2.1 (by decide),
   ((c5_poll_state_machine (fun _ => "") 0 0 "\x7b\"status\":\"PENDING\"\x7d"
      ⟨"", "PENDING"⟩ .timedOut).2.2.1 (by decide) (by decide)).1 (by decide),
   ((c5_poll_state_machine (fun _ => "") 0 0 "\x7b\"status\":\"FAILED\"\x7d"
      ⟨"", "FAILED"⟩ .timedOut).2.2.1 (by decide) (by decide)).2 (by decide) (by decide),
   (c5_poll_state_machine (fun _ => "\x7b\"status\":\"IN_PROGRESS\"\x7d") 2 0 ""
      ⟨"", ""⟩ .timedOut).2.2.2.1 (by decide),
   (c5_poll_state_machine (fun _ => "\x7b\"status\":\"FAILED\"\x7d") 2 0 ""
      ⟨"", ""⟩ (.generationFailed "FAILED")).2.2.2.2.1 (by decide),
   (c5_poll_state_machine (fun _ => "[1]") 2 0 (String.mk (trimChars "[1]".data))
      ⟨"", ""⟩ .timedOut).2.2.2.2.2.1 (by decide),
   (c5_poll_state_machine (fun _ => "\x7b\"status\":\"PENDING\"\x7d") 3 0 ""
      ⟨"", ""⟩ .timedOut).2.2.2.2.2.2 (fun j _ => by decide)⟩

/-- Claim C9: status normalization is total with range
`{"in_progress", "completed", "unknown"}`, matching the vendor vocabulary
exactly and case-sensitively: only `"Started"` and `"Completed"` map to the
known statuses, and case variants normalize to `"unknown"`. -/
theorem c9_status_normalization (s : String) :
    (toStatus s = "in_progress" ∨ toStatus s = "completed" ∨ toStatus s = "unknown")
      ∧ toStatus "Started" = "in_progress"
      ∧ toStatus "Completed" = "completed"
      ∧ (s ≠ "Started" → s ≠ "Completed" → toStatus s = "unknown")
      ∧ toStatus "completed" = "unknown"
      ∧ toStatus "STARTED" = "unknown" := by
  refine ⟨?_, by decide, by decide, ?_, by decide, by decide⟩
  · unfold toStatus
    split_ifs <;> simp
  · intro h1 h2
    simp [toStatus, h1, h2]

/-- Witness for C9 at a concrete unmatched status. -/
theorem c9_witness : toStatus "Weird" = "unknown" :=
  (c9_status_normalization "Weird").2.2.2.1 (by decide) (by decide)

theorem lookup2_loadRow_ne (r : StatusesStore) (row : ReportEntry) (c u : String)
    (h : ¬ (row.contentUUID = c ∧ row.userUUID = u)) :
    lookup2 (loadRow r row) c u = lookup2 r c u := by
  unfold lookup2 loadRow
  by_cases hc : c = row.contentUUID
  · have hu : ¬ (u = row.userUUID) := fun hEq => h ⟨hc.symm, hEq.symm⟩
    cases hr : r row.contentUUID with
    | none => simp [hc, hr, hu]
    | some m => simp [hc, hr, hu]
  · simp [hc]

theorem lookup2_loadRow_eq (r : StatusesStore) (row : ReportEntry) :
    lookup2 (loadRow r row) row.contentUUID row.userUUID = some (toStatus row.status) := by
  unfold lookup2 loadRow
  simp

theorem loadAll_concat (r : StatusesStore) (xs : Report) (x : ReportEntry) :
    loadAll r (xs ++ [x]) = loadRow (loadAll r xs) x := by
  simp [loadAll, List.foldl_append]

theorem lookup2_loadAll_frame (report : Report) (r : StatusesStore) (c u : String)
    (h : ∀ x ∈ report, ¬ (x.contentUUID = c ∧ x.userUUID = u)) :
    lookup2 (loadAll r report) c u = lookup2 r c u := by
  induction report generalizing r with
  | nil => rfl
  | cons row rows ih =>
    have h0 : ¬ (row.contentUUID = c ∧ row.userUUID = u) := h row (by simp)
    have hrest : ∀ x ∈ rows, ¬ (x.contentUUID = c ∧ x.userUUID = u) :=
      fun x hx => h x (by simp [hx])
    calc lookup2 (loadAll r (row :: rows)) c u
        = lookup2 (loadAll (loadRow r row) rows) c u := rfl
      _ = lookup2 (loadRow r row) c u := ih (loadRow r row) hrest
      _ = lookup2 r c u := lookup2_loadRow_ne r row c u h0

theorem lookup2_loadAll_last (report : Report) :
    ∀ (r : StatusesStore) (c u : String) (row : ReportEntry),
      (report.filter (fun x => x.contentUUID == c && x.userUUID == u)).getLast?
          = some row →
      lookup2 (loadAll r report) c u = some (toStatus row.status) := by
  induction report using List.reverseRecOn with
  | nil => intro r c u row h; simp at h
  | append_singleton xs x ih =>
    intro r c u row h
    rw [List.filter_append] at h
    by_cases hx : (x.contentUUID == c && x.userUUID == u) = true
    · have hfx : List.filter (fun y => y.contentUUID == c && y.userUUID == u) [x] = [x] := by
        simp [List.filter_singleton, hx]
      rw [hfx, List.getLast?_concat] at h
      have hrow : x = row := by injection h
      subst hrow
      have hcu : x.contentUUID = c ∧ x.userUUID = u := by simpa using hx
      rw [loadAll_concat]
      obtain ⟨h1, h2⟩ := hcu
      rw [← h1, ← h2]
      exact lookup2_loadRow_eq (loadAll r xs) x
    · have hx2 : (x.contentUUID == c && x.userUUID == u) = false := by
        revert hx
        cases x.contentUUID == c && x.userUUID == u <;> simp
      have hfx : List.filter (fun y => y.contentUUID == c && y.userUUID == u) [x] = [] := by
        simp [List.filter_singleton, hx2]
      rw [hfx, List.append_nil] at h
      rw [loadAll_concat, lookup2_loadRow_ne _ _ _ _ (by simpa using hx)]
      exact ih r c u row h

/-- Claim C10: `Load` only inserts or overwrites at the `(ContentUUID,
UserUUID)` keys of the report's rows — every other `(content, user)` entry is
unchanged —, a duplicate key keeps the last row's status, and `Load` returns
`nil` for every report, including the empty one. -/
theorem c10_load_frame (r : StatusesStore) (report : Report) (c u : String)
    (row : ReportEntry) :
    (Load r report).2 = none
      ∧ (Load r ([] : Report)).2 = none
      ∧ ((∀ x ∈ report, ¬ (x.contentUUID = c ∧ x.userUUID = u)) →
          lookup2 (loadAll r report) c u = lookup2 r c u)
      ∧ ((report.filter (fun x => x.contentUUID == c && x.userUUID == u)).getLast?
            = some row →
          lookup2 (loadAll r report) c u = some (toStatus row.status)) := by
  refine ⟨rfl, rfl, ?_, ?_⟩
  · exact lookup2_loadAll_frame report r c u
  · exact lookup2_loadAll_last report r c u row

/-- Witness for C10: a concrete store with a pre-existing entry, a report
with a duplicate key and a foreign row; the untouched entry survives and the
duplicate's last status wins. -/
theorem c10_witness :
    (Load (fun c => if c = "c0" then some (fun u => if u = "u0" then some "completed" else none)
                    else none)
        [⟨"c1", "u1", "Started"⟩, ⟨"c1", "u1", "Completed"⟩, ⟨"c2", "u2", "Bogus"⟩]).2 = none
      ∧ lookup2
          (loadAll
            (fun c => if c = "c0" then some (fun u => if u = "u0" then some "completed" else none)
                      else none)
            [⟨"c1", "u1", "Started"⟩, ⟨"c1", "u1", "Completed"⟩, ⟨"c2", "u2", "Bogus"⟩])
          "c0" "u0"
        = lookup2
            (fun c => if c = "c0" then some (fun u => if u = "u0" then some "completed" else none)
                      else none)
            "c0" "u0"
      ∧ lookup2
          (loadAll
            (fun c => if c = "c0" then some (fun u => if u = "u0" then some "completed" else none)
                      else none)
            [⟨"c1", "u1", "Started"⟩, ⟨"c1", "u1", "Completed"⟩, ⟨"c2", "u2", "Bogus"⟩])
          "c1" "u1"
        = some (toStatus "Completed") :=
  ⟨(c10_load_frame
      (fun c => if c = "c0" then some (fun u => if u = "u0" then some "completed" else none)
                else none)
      [⟨"c1", "u1", "Started"⟩, ⟨"c1", "u1", "Completed"⟩, ⟨"c2", "u2", "Bogus"⟩]
      "c0" "u0" ⟨"c1", "u1", "Completed"⟩).1,
   (c10_load_frame
      (fun c => if c = "c0" then some (fun u => if u = "u0" then some "completed" else none)
                else none)
      [⟨"c1", "u1", "Started"⟩, ⟨"c1", "u1", "Completed"⟩, ⟨"c2", "u2", "Bogus"⟩]
      "c0" "u0" ⟨"c1", "u1", "Completed"⟩).2.2.1 (by decide),
   (c10_load_frame
      (fun c => if c = "c0" then some (fun u => if u = "u0" then some "completed" else none)
                else none)
      [⟨"c1", "u1", "Started"⟩, ⟨"c1", "u1", "Completed"⟩, ⟨"c2", "u2", "Bogus"⟩]
      "c1" "u1" ⟨"c1", "u1", "Completed"⟩).2.2.2 (by decide)⟩
